import Mathlib

/-!
Verification development for the MoJ terraform-tag-validator
(`scripts/validate_tags.py`).  The Python source is shallowly embedded:

* JSON/YAML scalar values that can appear as tag values are modelled by
  `TagVal` (strings, booleans, integers, null), with Python truthiness
  (`truthy`), `str(...)` conversion (`pyStr`) and `str.strip()` (`pyStrip`).
* `fnmatch.fnmatch` is modelled by `globMatch` for the glob fragment made of
  literal characters, `*` and `?` (character classes `[...]` are not used by
  the repository's exclusion patterns and are treated as literals).
* `re.match` is modelled by `lexRe`/`buildRe`/`matchSeq` for the regular
  expression fragment used by the policy patterns: literal characters, `.`,
  the escapes `\s \S \d \D \w \W` and escaped punctuation, the quantifiers
  `* + ?`, and the anchors `^` and `$`.  Strings outside this fragment are
  rejected by the compiler (`parseRe` returns `none`), which models
  `re.error` for the malformed patterns considered in the theorems below
  (for example an unbalanced `(`).
* Exceptions that can escape the validator (an `re.error` raised while
  checking a tag format) are modelled with `Except Unit`.
-/

/-- A scalar value as it comes out of `json.load` for a tag value. -/
inductive TagVal
  | vStr (s : String)
  | vBool (b : Bool)
  | vInt (n : Int)
  | vNull
deriving DecidableEq, Repr

/-- Python truthiness (`bool(v)`) for a `TagVal`. -/
def truthy : TagVal → Bool
  | .vStr s => !(s == "")
  | .vBool b => b
  | .vInt n => !(n == 0)
  | .vNull => false

/-- Python `str(v)` for a `TagVal`. -/
def pyStr : TagVal → String
  | .vStr s => s
  | .vBool true => "True"
  | .vBool false => "False"
  | .vInt n => toString n
  | .vNull => "None"

/-- The ASCII whitespace characters recognised by Python's `\s` and
`str.strip()`. -/
def isPySpace (c : Char) : Bool :=
  c == ' ' || c == '\t' || c == '\n' || c == '\r' || c == '\x0b' || c == '\x0c'

/-- Characters matched by Python's `\w` (ASCII fragment). -/
def isPyWord (c : Char) : Bool :=
  c.isAlphanum || c == '_'

/-- Drop leading Python whitespace from a character list. -/
def stripStartList : List Char → List Char
  | [] => []
  | c :: cs => if isPySpace c then stripStartList cs else c :: cs

/-- Python `str.strip()` (ASCII whitespace fragment). -/
def pyStrip (s : String) : String :=
  String.mk ((stripStartList ((stripStartList s.data.reverse)).reverse))

/-- Python `==` between a `TagVal` and a string (used for membership in an
allowed-values list of strings; non-string values never equal a string). -/
def pyEqStr : TagVal → String → Bool
  | .vStr s, t => s == t
  | _, _ => false

/-- Python `v in allowed` for a list of allowed string values. -/
def pyMemStr (v : TagVal) (allowed : List String) : Bool :=
  allowed.any (pyEqStr v)

/-- Python `s.split(sep)` for a single-character separator: every
occurrence of the separator starts a new field. -/
def splitCharAux (sep : Char) : List Char → List Char → List String
  | [], acc => [String.mk acc.reverse]
  | c :: cs, acc =>
    if c == sep then String.mk acc.reverse :: splitCharAux sep cs []
    else splitCharAux sep cs (c :: acc)

/-- Python `s.split(sep)` on a string, single-character separator. -/
def pySplitChar (sep : Char) (s : String) : List String :=
  splitCharAux sep s.data []

/-- Python `needle in hay` for strings: substring containment. -/
def containsSub (needle : List Char) : List Char → Bool
  | [] => needle.isEmpty
  | c :: rest => needle.isPrefixOf (c :: rest) || containsSub needle rest

/-! ### `fnmatch.fnmatch` (glob matching, `should_exclude_resource`) -/

/-- Glob matching of a pattern (second argument) against a name
(third argument): `*` matches any run of characters, `?` exactly one,
everything else is literal.  Matches the whole name, as `fnmatch` does.
The first argument is recursion fuel; every step consumes either a pattern
character or a name character, and the pattern list never grows, so
`(pattern.length + 1) * (name.length + 1)` steps always suffice. -/
def globMatch : Nat → List Char → List Char → Bool
  | 0, _, _ => false
  | _ + 1, [], [] => true
  | _ + 1, [], _ :: _ => false
  | f + 1, '*' :: ps, cs =>
    globMatch f ps cs ||
      (match cs with
       | [] => false
       | _ :: cs' => globMatch f ('*' :: ps) cs')
  | f + 1, '?' :: ps, _ :: cs => globMatch f ps cs
  | _ + 1, '?' :: _, [] => false
  | f + 1, p :: ps, c :: cs => p == c && globMatch f ps cs
  | _ + 1, _ :: _, [] => false

/-- `fnmatch.fnmatch(name, pattern)` (POSIX: `normcase` is the identity). -/
def fnmatchFn (name pattern : String) : Bool :=
  globMatch ((pattern.length + 1) * (name.length + 1)) pattern.data name.data

/-! ### The regular-expression engine behind `re.match` -/

/-- One single-character matcher or anchor of the supported fragment. -/
inductive RAtom
  | lit (c : Char)
  | dot
  | clsS
  | clsNotS
  | clsD
  | clsNotD
  | clsW
  | clsNotW
  | caret
  | dollar
deriving DecidableEq, Repr

/-- A pattern piece: an atom with its quantifier. -/
inductive RPiece
  | once (a : RAtom)
  | star (a : RAtom)
  | plus (a : RAtom)
  | opt (a : RAtom)
deriving DecidableEq, Repr

/-- Does a (non-anchor) atom match one character? -/
def atomMatches : RAtom → Char → Bool
  | .lit c', c => c' == c
  | .dot, c => !(c == '\n')
  | .clsS, c => isPySpace c
  | .clsNotS, c => !isPySpace c
  | .clsD, c => c.isDigit
  | .clsNotD, c => !c.isDigit
  | .clsW, c => isPyWord c
  | .clsNotW, c => !isPyWord c
  | .caret, _ => false
  | .dollar, _ => false

/-- Backtracking matcher.  `matchSeq f ps cs atStart` holds when some prefix
of `cs` is matched by `ps` (Python `re.match` anchors at the start but not at
the end; `$` matches at the end of the string or just before a final
newline, `^` only at the start).  `f` is recursion fuel; every step consumes
either a character of `cs` or a piece of `ps`, and the piece list never
grows, so `(ps.length + 1) * (cs.length + 1)` steps always suffice. -/
def matchSeq : Nat → List RPiece → List Char → Bool → Bool
  | 0, _, _, _ => false
  | _ + 1, [], _, _ => true
  | f + 1, .once .caret :: ps, cs, atStart => atStart && matchSeq f ps cs atStart
  | f + 1, .once .dollar :: ps, cs, atStart =>
    (cs == [] || cs == ['\n']) && matchSeq f ps cs atStart
  | f + 1, .once a :: ps, cs, _ =>
    (match cs with
     | [] => false
     | c :: cs' => atomMatches a c && matchSeq f ps cs' false)
  | f + 1, .star a :: ps, cs, atStart =>
    matchSeq f ps cs atStart ||
      (match cs with
       | [] => false
       | c :: cs' => atomMatches a c && matchSeq f (.star a :: ps) cs' false)
  | f + 1, .plus a :: ps, cs, _ =>
    (match cs with
     | [] => false
     | c :: cs' => atomMatches a c && matchSeq f (.star a :: ps) cs' false)
  | f + 1, .opt a :: ps, cs, atStart =>
    matchSeq f ps cs atStart ||
      (match cs with
       | [] => false
       | c :: cs' => atomMatches a c && matchSeq f ps cs' false)

/-- A lexed token: an atom or a quantifier symbol. -/
inductive RTok
  | atom (a : RAtom)
  | qstar
  | qplus
  | qopt
deriving DecidableEq, Repr

/-- Lex an escape sequence.  Alphanumeric escapes other than the supported
classes are rejected, as Python rejects unknown escapes. -/
def escAtom : Char → Option RAtom
  | 's' => some .clsS
  | 'S' => some .clsNotS
  | 'd' => some .clsD
  | 'D' => some .clsNotD
  | 'w' => some .clsW
  | 'W' => some .clsNotW
  | c => if c.isAlpha || c.isDigit then none else some (.lit c)

/-- Lex a pattern string into tokens; `none` models `re.error` (also for
constructs outside the supported fragment, such as groups, classes and
alternation). -/
def lexRe : List Char → Option (List RTok)
  | [] => some []
  | '\\' :: rest =>
    (match rest with
     | [] => none
     | e :: rest' =>
       match escAtom e with
       | none => none
       | some a => (lexRe rest').map (RTok.atom a :: ·))
  | '^' :: rest => (lexRe rest).map (RTok.atom .caret :: ·)
  | '$' :: rest => (lexRe rest).map (RTok.atom .dollar :: ·)
  | '.' :: rest => (lexRe rest).map (RTok.atom .dot :: ·)
  | '*' :: rest => (lexRe rest).map (RTok.qstar :: ·)
  | '+' :: rest => (lexRe rest).map (RTok.qplus :: ·)
  | '?' :: rest => (lexRe rest).map (RTok.qopt :: ·)
  | c :: rest =>
    if c == '(' || c == ')' || c == '[' || c == ']' ||
       c == '\x7b' || c == '\x7d' || c == '|' then none
    else (lexRe rest).map (RTok.atom (.lit c) :: ·)

/-- Attach quantifiers to atoms.  A quantifier with nothing before it, a
doubled quantifier, or a quantified anchor is an error. -/
def buildRe : List RTok → Option (List RPiece)
  | [] => some []
  | .qstar :: _ => none
  | .qplus :: _ => none
  | .qopt :: _ => none
  | [.atom a] => some [RPiece.once a]
  | .atom a :: .qstar :: rest =>
    if a == .caret || a == .dollar then none
    else (buildRe rest).map (RPiece.star a :: ·)
  | .atom a :: .qplus :: rest =>
    if a == .caret || a == .dollar then none
    else (buildRe rest).map (RPiece.plus a :: ·)
  | .atom a :: .qopt :: rest =>
    if a == .caret || a == .dollar then none
    else (buildRe rest).map (RPiece.opt a :: ·)
  | .atom a :: t :: rest =>
    (buildRe (t :: rest)).map (RPiece.once a :: ·)

/-- `re.compile(pattern)`: `none` models `re.error`. -/
def parseRe (pattern : String) : Option (List RPiece) :=
  (lexRe pattern.data).bind buildRe

/-- `re.match(pattern, s)` viewed as a boolean; `.error` models an `re.error`
exception raised because the pattern does not compile. -/
def pyReMatch (pattern s : String) : Except Unit Bool :=
  match parseRe pattern with
  | none => .error ()
  | some ps => .ok (matchSeq ((ps.length + 1) * (s.length + 1)) ps s.data true)

deriving instance DecidableEq for Except

/-! ### The validator (`validate_terraform_plan`) -/

/-- A JSON object of tag values (`after.tags` / `after.tags_all`). -/
abbrev TagMap := List (String × TagVal)

/-- The `REQUIRED_TAGS` global: tag name to optional allowed-values list
(`None` in Python, i.e. `none` here, means any value is accepted). -/
abbrev RequiredTags := List (String × Option (List String))

/-- The `TAG_FORMATS` global: tag name to (pattern, description). -/
abbrev TagFormats := List (String × String × String)

/-- `DEFAULT_REQUIRED_TAGS` from the source. -/
def DEFAULT_REQUIRED_TAGS : RequiredTags :=
  [("business-unit", some ["HMPPS", "OPG", "LAA", "Central Digital",
      "Technology Services", "HMCTS", "CICA", "Platforms"]),
   ("application", none),
   ("owner", none),
   ("is-production", some ["true", "false"]),
   ("service-area", none),
   ("environment-name", some ["production", "staging", "test", "development"])]

/-- `DEFAULT_TAG_FORMATS` from the source. -/
def DEFAULT_TAG_FORMATS : TagFormats :=
  [("owner", "^.+:\\s+\\S+@\\S+\\.\\S+$",
    "Must be format: <team-name>: <team-email> (e.g., WebOps: webops@digital.justice.gov.uk)")]

/-- `parse_required_tags`: split the input on commas if any, else on
newlines, strip each entry, and drop empties. -/
def parseRequiredTags (tagsInput : String) : List String :=
  if tagsInput.data.contains ',' then
    ((pySplitChar ',' tagsInput).map pyStrip).filter (fun t => !(t == ""))
  else
    ((pySplitChar '\n' tagsInput).map pyStrip).filter (fun t => !(t == ""))

/-- `should_exclude_resource`: the address is matched against each exclusion
pattern with `fnmatch.fnmatch`. -/
def shouldExcludeResource (excludeResources : List String)
    (resourceAddress : String) : Bool :=
  excludeResources.any (fun pattern => fnmatchFn resourceAddress pattern)

/-- One entry of the `invalid_tags` accumulator of the per-resource loop:
either an allowed-values failure or a format failure. -/
inductive InvalidRec
  | allowed (tag : String) (value : TagVal) (allowedValues : List String)
  | format (tag : String) (value : TagVal) (description : String)
deriving DecidableEq, Repr

/-- A recorded violation, as appended to the `violations` list: one
aggregated `missing` record per resource, and one `invalid` record per
failed check.  The `location` field carries the externally resolved
`find_resource_location` result. -/
inductive Violation
  | missing (resource : String) (location : Option (String × Nat))
      (tags : List String)
  | invalidAllowed (resource : String) (location : Option (String × Nat))
      (tag : String) (value : TagVal) (allowedValues : List String)
  | invalidFormat (resource : String) (location : Option (String × Nat))
      (tag : String) (value : TagVal) (description : String)
deriving DecidableEq, Repr

/-- The body of `for tag in required_tags` for one tag: returns the entries
this tag adds to `missing_tags` and `invalid_tags`, or an error when
`re.match` raises on an uncompilable stored pattern. -/
def checkTag (requiredTagsCfg : RequiredTags) (tagFormats : TagFormats)
    (tags : TagMap) (tag : String) :
    Except Unit (List String × List InvalidRec) :=
  match tags.lookup tag with
  | none => .ok ([tag], [])
  | some tagValue =>
    if !truthy tagValue || pyStrip (pyStr tagValue) == "" then
      .ok ([tag ++ " (empty value)"], [])
    else
      let invAllowed : List InvalidRec :=
        match requiredTagsCfg.lookup tag with
        | some (some allowedValues) =>
          if pyMemStr tagValue allowedValues then []
          else [.allowed tag tagValue allowedValues]
        | _ => []
      match tagFormats.lookup tag with
      | some (pattern, description) =>
        (match pyReMatch pattern (pyStr tagValue) with
         | .error e => .error e
         | .ok matched =>
           .ok ([], invAllowed ++
             (if matched then [] else [.format tag tagValue description])))
      | none => .ok ([], invAllowed)

/-- The whole `for tag in required_tags` loop: accumulated `missing_tags`
and `invalid_tags` in iteration order; an exception aborts the loop. -/
def checkTagsLoop (requiredTagsCfg : RequiredTags) (tagFormats : TagFormats)
    (tags : TagMap) : List String → Except Unit (List String × List InvalidRec)
  | [] => .ok ([], [])
  | tag :: rest =>
    match checkTag requiredTagsCfg tagFormats tags tag with
    | .error e => .error e
    | .ok (m, i) =>
      match checkTagsLoop requiredTagsCfg tagFormats tags rest with
      | .error e => .error e
      | .ok (ms, is2) => .ok (m ++ ms, i ++ is2)

/-- Violation recording for one resource: if any tags are missing, one
aggregated `missing` record is appended first; then one `invalid` record per
entry of `invalid_tags`, in order. -/
def recordViolations (resource : String) (location : Option (String × Nat))
    (missingTags : List String) (invalidTags : List InvalidRec) :
    List Violation :=
  (if missingTags.isEmpty then [] else [.missing resource location missingTags]) ++
    invalidTags.map (fun i =>
      match i with
      | .allowed t v av => Violation.invalidAllowed resource location t v av
      | .format t v d => Violation.invalidFormat resource location t v d)

/-- One entry of `plan["resource_changes"]`, restricted to the fields the
validator reads.  `tags` and `tags_all` are `none` when the corresponding
key is absent from (or null in) `change.after`; when present they are
key-value mappings. -/
structure ResourceChange where
  address : String
  rtype : String
  actions : List String
  tags : Option TagMap
  tags_all : Option TagMap
deriving DecidableEq, Repr

/-- The tag set a checked resource is validated against: `tags_all` when it
is a mapping, else `tags` when it is a mapping, else the empty mapping
(lines 214-218 of the source; the spec's Tag Resolver). -/
def effectiveTags (c : ResourceChange) : TagMap :=
  match c.tags_all with
  | some m => m
  | none =>
    match c.tags with
    | some m => m
    | none => []

/-- The three skip guards of the resource loop, combined: a change is in
scope when its actions are not exactly `[delete]` or `[no-op]`, its address
matches no exclusion pattern, and it exposes `tags` or `tags_all`. -/
def resourceInScope (excludeResources : List String) (c : ResourceChange) :
    Bool :=
  !(c.actions == ["delete"] || c.actions == ["no-op"]) &&
    !shouldExcludeResource excludeResources c.address &&
    !(c.tags_all.isNone && c.tags.isNone)

/-- The body of the `for resource in plan.get('resource_changes', [])` loop
for one resource: the violations it appends and its contribution (0 or 1)
to `resources_checked`.  `loc` is the external `find_resource_location`
collaborator. -/
def processResource (requiredTagsCfg : RequiredTags) (tagFormats : TagFormats)
    (excludeResources : List String) (requiredTags : List String)
    (loc : String → Option (String × Nat)) (c : ResourceChange) :
    Except Unit (List Violation × Nat) :=
  if c.actions == ["delete"] || c.actions == ["no-op"] then .ok ([], 0)
  else if shouldExcludeResource excludeResources c.address then .ok ([], 0)
  else if c.tags_all.isNone && c.tags.isNone then .ok ([], 0)
  else
    match checkTagsLoop requiredTagsCfg tagFormats (effectiveTags c)
        requiredTags with
    | .error e => .error e
    | .ok (missingTags, invalidTags) =>
      .ok (recordViolations c.address (loc c.address) missingTags invalidTags, 1)

/-- The full loop of `validate_terraform_plan`: violations in resource
iteration order and the final `resources_checked` count. -/
def validatePlan (requiredTagsCfg : RequiredTags) (tagFormats : TagFormats)
    (excludeResources : List String) (requiredTags : List String)
    (loc : String → Option (String × Nat)) :
    List ResourceChange → Except Unit (List Violation × Nat)
  | [] => .ok ([], 0)
  | c :: cs =>
    match processResource requiredTagsCfg tagFormats excludeResources
        requiredTags loc c with
    | .error e => .error e
    | .ok (vs, n) =>
      match validatePlan requiredTagsCfg tagFormats excludeResources
          requiredTags loc cs with
      | .error e => .error e
      | .ok (vss, ns) => .ok (vs ++ vss, n + ns)

/-- The return value of `validate_terraform_plan`: 0 when no violations were
found, 1 otherwise (the error is an exception escaping the function). -/
def validateExitCode (requiredTagsCfg : RequiredTags) (tagFormats : TagFormats)
    (excludeResources : List String) (requiredTags : List String)
    (loc : String → Option (String × Nat)) (changes : List ResourceChange) :
    Except Unit Nat :=
  match validatePlan requiredTagsCfg tagFormats excludeResources requiredTags
      loc changes with
  | .error e => .error e
  | .ok (vs, _) => .ok (if vs.isEmpty then 0 else 1)

/-- The process exit status of the `__main__` driver.  `snapshot = none`
models `open`/`json.load` raising on an unreadable or non-JSON plan file:
the exception is not caught anywhere, and CPython terminates a process with
exit status 1 on an uncaught exception.  An exception escaping
`validate_terraform_plan` (an `re.error` from a stored uncompilable
pattern) likewise yields status 1; otherwise the process exits with the
return value of `validate_terraform_plan`. -/
def mainExitCode (snapshot : Option (List ResourceChange))
    (requiredTagsCfg : RequiredTags) (tagFormats : TagFormats)
    (excludeResources : List String) (requiredTags : List String)
    (loc : String → Option (String × Nat)) : Nat :=
  match snapshot with
  | none => 1
  | some changes =>
    match validateExitCode requiredTagsCfg tagFormats excludeResources
        requiredTags loc changes with
    | .error _ => 1
    | .ok rc => rc

/-- The external location collaborator that finds nothing (no `.tf` files
next to the plan). -/
def locNone : String → Option (String × Nat) := fun _ => none

/-! ### `load_config` and its global state -/

/-- A YAML value as produced by `yaml.safe_load`, restricted to string keys
and to the shapes the loader inspects (`allowed_values` entries and
`exclude_resources` entries outside the string-list shape are outside the
modelled fragment). -/
inductive YVal
  | yNull
  | yBool (b : Bool)
  | yInt (n : Int)
  | yStr (s : String)
  | yList (xs : List YVal)
  | yMap (m : List (String × YVal))

/-- Python truthiness of a YAML value (`if not config: ...`,
`config['exclude_resources'] or []`). -/
def yFalsy : YVal → Bool
  | .yNull => true
  | .yBool b => !b
  | .yInt n => n == 0
  | .yStr s => s == ""
  | .yList xs => xs.isEmpty
  | .yMap m => m.isEmpty

/-- Python `k in y` for a string `k`: key membership for a mapping, element
equality for a list, substring test for a string; `none` models the
`TypeError` raised for the remaining scalars. -/
def pyContainsKey (y : YVal) (k : String) : Option Bool :=
  match y with
  | .yMap m => some (m.any (fun e => e.1 == k))
  | .yList xs =>
    some (xs.any (fun x =>
      match x with
      | .yStr s => s == k
      | _ => false))
  | .yStr s => some (containsSub k.data s.data)
  | _ => none

/-- Python `y[k]` for a string `k`: only mappings support string subscripts;
`none` models the `TypeError` raised otherwise. -/
def pyIndex (y : YVal) (k : String) : Option YVal :=
  match y with
  | .yMap m => m.lookup k
  | _ => none

/-- The strings of a YAML list (the modelled fragment keeps only the string
entries of `allowed_values` / `exclude_resources` lists). -/
def yStrList : YVal → List String
  | .yList xs =>
    xs.filterMap (fun x =>
      match x with
      | .yStr s => some s
      | _ => none)
  | _ => []

/-- The module-level mutable configuration: `REQUIRED_TAGS`, `TAG_FORMATS`
and `EXCLUDE_RESOURCES`. -/
structure ConfigState where
  required : RequiredTags
  formats : TagFormats
  exclude : List String
deriving DecidableEq, Repr

/-- The state of the globals before any `load_config` call: copies of the
defaults and an empty exclusion list. -/
def defaultConfigState : ConfigState :=
  { required := DEFAULT_REQUIRED_TAGS
    formats := DEFAULT_TAG_FORMATS
    exclude := [] }

/-- One iteration of `for tag_name, tag_config in config['required_tags']
.items()`: a mapping may carry `allowed_values`, `pattern` and
`pattern_description`; anything else is a simple tag without constraints.
An `allowed_values` of null is stored as the Python `None` it is, which is
indistinguishable downstream from an absent `allowed_values`. -/
def parseTagEntry (st : ConfigState) (e : String × YVal) : ConfigState :=
  match e.2 with
  | .yMap tagConfig =>
    let allowed : Option (List String) :=
      match tagConfig.lookup "allowed_values" with
      | none => none
      | some .yNull => none
      | some v => some (yStrList v)
    let st1 := { st with required := st.required ++ [(e.1, allowed)] }
    match tagConfig.lookup "pattern" with
    | some (.yStr p) =>
      let description :=
        match tagConfig.lookup "pattern_description" with
        | some (.yStr d) => d
        | _ => "Must match pattern: " ++ p
      { st1 with formats := st1.formats ++ [(e.1, p, description)] }
    | _ => st1
  | _ => { st with required := st.required ++ [(e.1, none)] }

/-- The `exclude_resources` part of `load_config`, reached only when the
`required_tags` part did not raise. -/
def loadConfigExclude (st : ConfigState) (y : YVal) : ConfigState × Bool :=
  match pyContainsKey y "exclude_resources" with
  | none => (st, false)
  | some false => (st, true)
  | some true =>
    match pyIndex y "exclude_resources" with
    | none => (st, false)
    | some v =>
      ({ st with exclude := if yFalsy v then [] else yStrList v }, true)

/-- `load_config`, with the globals passed explicitly.  `doc = none` covers
the paths that never reach the parsed document: PyYAML unavailable, config
file missing, or `yaml.safe_load` raising; each returns `False` with the
globals untouched.  When `required_tags` is present, `REQUIRED_TAGS` and
`TAG_FORMATS` are reset to empty BEFORE `config['required_tags'].items()`
is evaluated; if that subscript or iteration raises (the document maps
`required_tags` to a non-mapping, or the document is a list or string
containing `required_tags`), the `except Exception` handler returns `False`
with the reset, emptied globals left in place. -/
def loadConfig (doc : Option YVal) (st : ConfigState) : ConfigState × Bool :=
  match doc with
  | none => (st, false)
  | some y =>
    if yFalsy y then (st, false)
    else
      match pyContainsKey y "required_tags" with
      | none => (st, false)
      | some false => loadConfigExclude st y
      | some true =>
        let st1 := { st with required := [], formats := [] }
        match pyIndex y "required_tags" with
        | none => (st1, false)
        | some rt =>
          match rt with
          | .yMap entries => loadConfigExclude (entries.foldl parseTagEntry st1) y
          | _ => (st1, false)

/-! ### Concrete inputs used by the theorems -/

/-- The Scenario 1 tag mapping of the spec. -/
def scenario1Tags : TagMap :=
  [("business-unit", .vStr "HMPPS"), ("application", .vStr "Foo"),
   ("owner", .vStr "Team: a@b.com"), ("is-production", .vStr "true"),
   ("service-area", .vStr "X"), ("environment-name", .vStr "test")]

/-- A resource created with the Scenario 1 tags. -/
def scenario1Resource : ResourceChange :=
  { address := "aws_s3_bucket.r"
    rtype := "aws_s3_bucket"
    actions := ["create"]
    tags := some scenario1Tags
    tags_all := none }

/-- The Scenario 5 resource: created, taggable, and matched by the
exclusion glob `aws_s3_bucket.*`. -/
def scenario5Resource : ResourceChange :=
  { address := "aws_s3_bucket.logs"
    rtype := "aws_s3_bucket"
    actions := ["create"]
    tags := some [("Name", .vStr "logs")]
    tags_all := none }

/-- A created resource with an empty tag mapping (Scenario 2). -/
def emptyTagsResource : ResourceChange :=
  { address := "aws_instance.r"
    rtype := "aws_instance"
    actions := ["create"]
    tags := some []
    tags_all := none }

/-- A resource whose resolved tags violate the default policy while its
declared tags satisfy it. -/
def resolvedBadResource : ResourceChange :=
  { address := "aws_db_instance.r"
    rtype := "aws_db_instance"
    actions := ["update"]
    tags := some scenario1Tags
    tags_all := some [("business-unit", .vStr "NotATeam")] }

/-- A policy document whose `owner` rule carries the uncompilable pattern
`(` (Python: `re.error`, missing closing parenthesis). -/
def invalidPatternDoc : YVal :=
  .yMap [("required_tags", .yMap [("owner", .yMap [("pattern", .yStr "(")])])]

/-- A structurally malformed policy document: `required_tags` is a list,
so `config['required_tags'].items()` raises `AttributeError`. -/
def listRequiredTagsDoc : YVal :=
  .yMap [("required_tags", .yList [.yStr "business-unit"])]

/-! ### Claims -/

/-- C2: a required tag present with an empty or whitespace-only string value
is classified as missing with the "(empty value)" annotation, and no
allowed-values or format check runs for it, whatever constraints the policy
holds for that tag. -/
theorem c2_empty_value_is_missing (requiredTagsCfg : RequiredTags)
    (tagFormats : TagFormats) (tags : TagMap) (tag s : String)
    (h : tags.lookup tag = some (.vStr s)) (hs : pyStrip s = "") :
    checkTag requiredTagsCfg tagFormats tags tag
      = .ok ([tag ++ " (empty value)"], []) := by
  have hc : (!truthy (TagVal.vStr s) || pyStrip (pyStr (TagVal.vStr s)) == "") = true := by
    by_cases he : s = ""
    · subst he; simp [truthy]
    · simp [truthy, pyStr, hs, he]
  simp [checkTag, h, hc]

/-- C2 witness: the empty-ish value `"   "` for a tag that has both an
allowed-values list and a pattern that matches the empty string. -/
theorem c2_witness :
    checkTag [("env", some ["a"])] [("env", ".*", "desc")]
      [("env", TagVal.vStr "   ")] "env"
      = .ok (["env (empty value)"], []) :=
  c2_empty_value_is_missing [("env", some ["a"])] [("env", ".*", "desc")]
    [("env", TagVal.vStr "   ")] "env" "   " (by decide) (by decide)

/-- C10: a required tag whose value is falsy before string conversion (JSON
false, 0 or null, as well as the empty string) is classified as missing with
the "(empty value)" annotation, with no allowed-values or format check. -/
theorem c10_falsy_value_is_missing (requiredTagsCfg : RequiredTags)
    (tagFormats : TagFormats) (tags : TagMap) (tag : String) (v : TagVal)
    (h : tags.lookup tag = some v) (hv : truthy v = false) :
    checkTag requiredTagsCfg tagFormats tags tag
      = .ok ([tag ++ " (empty value)"], []) := by
  simp [checkTag, h, hv]

/-- C10 witness: the JSON value `false` under a tag with an allowed-values
list and a pattern; neither check runs. -/
theorem c10_witness :
    checkTag [("is-production", some ["true", "false"])]
      [("is-production", "^t", "desc")]
      [("is-production", TagVal.vBool false)] "is-production"
      = .ok (["is-production (empty value)"], []) :=
  c10_falsy_value_is_missing [("is-production", some ["true", "false"])]
    [("is-production", "^t", "desc")]
    [("is-production", TagVal.vBool false)] "is-production"
    (TagVal.vBool false) (by decide) (by decide)

/-- C9: a non-empty value outside the allowed-values list that also fails
the pattern produces both an allowed-values record and a format record for
that tag, in that order. -/
theorem c9_both_checks_fire (requiredTagsCfg : RequiredTags)
    (tagFormats : TagFormats) (tags : TagMap) (tag : String) (v : TagVal)
    (allowedValues : List String) (pattern description : String)
    (h : tags.lookup tag = some v)
    (hv : truthy v = true)
    (hs : ¬ pyStrip (pyStr v) = "")
    (ha : requiredTagsCfg.lookup tag = some (some allowedValues))
    (hm : pyMemStr v allowedValues = false)
    (hf : tagFormats.lookup tag = some (pattern, description))
    (hr : pyReMatch pattern (pyStr v) = .ok false) :
    checkTag requiredTagsCfg tagFormats tags tag
      = .ok ([], [.allowed tag v allowedValues, .format tag v description]) := by
  simp [checkTag, h, hv, hs, ha, hm, hf, hr]

/-- C9 witness: value `xyz` against allowed list `[prod]` and pattern
`^abc`: both checks fail, giving the two records in order. -/
theorem c9_witness :
    checkTag [("env", some ["prod"])] [("env", "^abc", "desc")]
      [("env", TagVal.vStr "xyz")] "env"
      = .ok ([], [.allowed "env" (TagVal.vStr "xyz") ["prod"],
                  .format "env" (TagVal.vStr "xyz") "desc"]) :=
  c9_both_checks_fire [("env", some ["prod"])] [("env", "^abc", "desc")]
    [("env", TagVal.vStr "xyz")] "env" (TagVal.vStr "xyz") ["prod"]
    "^abc" "desc" (by decide) (by decide) (by decide) (by decide)
    (by decide) (by decide) (by decide)

/-- C5: when `tags_all` is present, the resource is validated against
exactly that mapping and the `tags` field has no effect on the outcome. -/
theorem c5_resolved_tags_win (requiredTagsCfg : RequiredTags)
    (tagFormats : TagFormats) (excludeResources : List String)
    (requiredTags : List String) (loc : String → Option (String × Nat))
    (c : ResourceChange) (m : TagMap) (h : c.tags_all = some m)
    (t1 t2 : Option TagMap) :
    effectiveTags { c with tags := t1 } = m ∧
      processResource requiredTagsCfg tagFormats excludeResources
          requiredTags loc { c with tags := t1 }
        = processResource requiredTagsCfg tagFormats excludeResources
            requiredTags loc { c with tags := t2 } := by
  constructor
  · simp [effectiveTags, h]
  · simp [processResource, effectiveTags, h]

/-- C5 witness: resolved tags violating the default policy while the
declared tags satisfy it; replacing the declared tags by nothing at all
leaves the evaluation unchanged. -/
theorem c5_witness :
    effectiveTags { resolvedBadResource with tags := some scenario1Tags }
        = [("business-unit", TagVal.vStr "NotATeam")] ∧
      processResource DEFAULT_REQUIRED_TAGS DEFAULT_TAG_FORMATS []
          ["business-unit"] locNone
          { resolvedBadResource with tags := some scenario1Tags }
        = processResource DEFAULT_REQUIRED_TAGS DEFAULT_TAG_FORMATS []
            ["business-unit"] locNone
            { resolvedBadResource with tags := none } :=
  c5_resolved_tags_win DEFAULT_REQUIRED_TAGS DEFAULT_TAG_FORMATS []
    ["business-unit"] locNone resolvedBadResource
    [("business-unit", TagVal.vStr "NotATeam")] (by decide)
    (some scenario1Tags) none

/-- C1: a change is in scope iff its actions are not exactly `[delete]` and
not exactly `[no-op]`, its address matches no exclusion glob, and at least
one of `tags`/`tags_all` is present; an out-of-scope change produces no
violations and contributes 0 to `resources_checked`, and an in-scope change
always contributes exactly 1. -/
theorem c1_scope_classification (requiredTagsCfg : RequiredTags)
    (tagFormats : TagFormats) (excludeResources : List String)
    (requiredTags : List String) (loc : String → Option (String × Nat))
    (c : ResourceChange) :
    (resourceInScope excludeResources c = true ↔
      (c.actions ≠ ["delete"] ∧ c.actions ≠ ["no-op"] ∧
        (∀ p ∈ excludeResources, fnmatchFn c.address p = false) ∧
        (c.tags_all ≠ none ∨ c.tags ≠ none))) ∧
    (resourceInScope excludeResources c = false →
      processResource requiredTagsCfg tagFormats excludeResources
        requiredTags loc c = .ok ([], 0)) ∧
    (∀ vs n, resourceInScope excludeResources c = true →
      processResource requiredTagsCfg tagFormats excludeResources
        requiredTags loc c = .ok (vs, n) → n = 1) := by
  refine ⟨?_, ?_, ?_⟩
  · simp only [resourceInScope, shouldExcludeResource, Bool.and_eq_true,
      Bool.not_eq_true', Bool.or_eq_false_iff, beq_eq_false_iff_ne, ne_eq,
      List.any_eq_false, Bool.not_eq_true, Bool.and_eq_false_iff,
      Option.isNone_eq_false_iff, Option.ne_none_iff_isSome]
    constructor
    · rintro ⟨⟨⟨h1, h2⟩, h3⟩, h4⟩
      exact ⟨h1, h2, h3, by tauto⟩
    · rintro ⟨h1, h2, h3, h4⟩
      exact ⟨⟨⟨h1, h2⟩, h3⟩, by tauto⟩
  · intro h
    by_cases h1 : (c.actions == ["delete"] || c.actions == ["no-op"]) = true
    · simp [processResource, h1]
    · rw [Bool.not_eq_true] at h1
      by_cases h2 : shouldExcludeResource excludeResources c.address = true
      · simp [processResource, h1, h2]
      · rw [Bool.not_eq_true] at h2
        by_cases h3 : (c.tags_all.isNone && c.tags.isNone) = true
        · simp [processResource, h1, h2, h3]
        · rw [Bool.not_eq_true] at h3
          rw [resourceInScope, h1, h2, h3] at h
          simp at h
  · intro vs n hin hp
    rw [resourceInScope, Bool.and_eq_true, Bool.and_eq_true] at hin
    obtain ⟨⟨h1, h2⟩, h3⟩ := hin
    rw [Bool.not_eq_true'] at h1 h2 h3
    rw [processResource, h1, h2, h3] at hp
    simp only [Bool.false_eq_true, if_false] at hp
    cases hcl : checkTagsLoop requiredTagsCfg tagFormats (effectiveTags c)
        requiredTags with
    | error e => rw [hcl] at hp; exact absurd hp (by simp)
    | ok p =>
      rw [hcl] at hp
      obtain ⟨pm, pi⟩ := p
      simp only [Except.ok.injEq, Prod.mk.injEq] at hp
      exact hp.2.symm

/-- C1 witness (Scenario 5): a created, taggable resource matched by the
exclusion glob `aws_s3_bucket.*` is skipped entirely: no violations and a
0 contribution to `resources_checked`. -/
theorem c1_witness :
    processResource DEFAULT_REQUIRED_TAGS DEFAULT_TAG_FORMATS
      ["aws_s3_bucket.*"] ["business-unit"] locNone scenario5Resource
      = .ok ([], 0) :=
  (c1_scope_classification DEFAULT_REQUIRED_TAGS DEFAULT_TAG_FORMATS
    ["aws_s3_bucket.*"] ["business-unit"] locNone scenario5Resource).2.1
    (by decide)

/-- C3 (Scenario 1): the six spec tags against the built-in default policy
with the default six-tag required list give zero violations, with the
resource counted. -/
theorem c3_default_policy_scenario1 :
    validatePlan DEFAULT_REQUIRED_TAGS DEFAULT_TAG_FORMATS []
      (parseRequiredTags
        "business-unit,application,owner,is-production,service-area,environment-name")
      locNone [scenario1Resource]
      = .ok ([], 1) := by decide

/-- C4 counterexample: an empty tag mapping against required list
`[business-unit, owner]` yields ONE aggregated missing-tags record listing
both names, not two separate violation records. -/
theorem c4_counterexample :
    processResource DEFAULT_REQUIRED_TAGS DEFAULT_TAG_FORMATS []
      ["business-unit", "owner"] locNone emptyTagsResource
      = .ok ([Violation.missing "aws_instance.r" none
          ["business-unit", "owner"]], 1)
    ∧ [Violation.missing "aws_instance.r" none
        ["business-unit", "owner"]].length = 1 := by decide

/-- C4 amended: the run produces exactly one violation record, an
aggregated missing-tags record listing `business-unit` then `owner` in that
order, and counts the resource once. -/
theorem c4_amended_single_aggregated_record :
    validatePlan DEFAULT_REQUIRED_TAGS DEFAULT_TAG_FORMATS []
      ["business-unit", "owner"] locNone [emptyTagsResource]
      = .ok ([Violation.missing "aws_instance.r" none
          ["business-unit", "owner"]], 1) := by decide

/-- C6 counterexample: a policy document whose `owner` pattern is the
uncompilable `(` loads successfully (`load_config` returns `True`), and the
evaluator then raises on the first non-empty `owner` value. -/
theorem c6_counterexample :
    (loadConfig (some invalidPatternDoc) defaultConfigState).2 = true
    ∧ checkTag (loadConfig (some invalidPatternDoc) defaultConfigState).1.required
        (loadConfig (some invalidPatternDoc) defaultConfigState).1.formats
        [("owner", TagVal.vStr "WebOps")] "owner"
      = .error () := by decide

/-- C6 amended: policy construction performs no pattern validation — a
document whose rule carries ANY pattern string loads successfully — and an
uncompilable stored pattern makes the evaluator raise when it checks a
non-empty value for that tag. -/
theorem c6_amended_no_load_validation (name p : String) (st : ConfigState)
    (tags : TagMap) (v : TagVal)
    (h : tags.lookup name = some v)
    (hv : truthy v = true)
    (hs : ¬ pyStrip (pyStr v) = "")
    (hp : parseRe p = none) :
    (loadConfig (some (.yMap [("required_tags",
        .yMap [(name, .yMap [("pattern", .yStr p)])])])) st).2 = true
    ∧ checkTag [(name, none)] [(name, p, "Must match pattern: " ++ p)]
        tags name
      = .error () := by
  constructor
  · rfl
  · simp [checkTag, h, hv, hs, List.lookup, pyReMatch, hp]

/-- C6 amended witness: the concrete pattern `(` with value `WebOps`. -/
theorem c6_amended_witness :
    (loadConfig (some (.yMap [("required_tags",
        .yMap [("owner", .yMap [("pattern", .yStr "(")])])]))
        defaultConfigState).2 = true
    ∧ checkTag [("owner", none)] [("owner", "(", "Must match pattern: (")]
        [("owner", TagVal.vStr "WebOps")] "owner"
      = .error () :=
  c6_amended_no_load_validation "owner" "(" defaultConfigState
    [("owner", TagVal.vStr "WebOps")] (TagVal.vStr "WebOps")
    (by decide) (by decide) (by decide) (by decide)

/-- C7: on a structurally malformed document whose `required_tags` is a
list, `load_config` resets `REQUIRED_TAGS` and `TAG_FORMATS` to empty
before the failing `.items()` call, and the `except` handler leaves them
empty while printing that the default configuration is in use: the active
policy after the failed load is NOT the built-in default. -/
theorem c7_partial_state_after_failed_load :
    loadConfig (some listRequiredTagsDoc) defaultConfigState
      = ({ required := [], formats := [], exclude := [] }, false)
    ∧ ({ required := [], formats := [], exclude := [] } : ConfigState)
      ≠ defaultConfigState := by decide

/-- C8 counterexample: an unreadable or non-JSON snapshot terminates the
process with exit status 1 — the same status as a run that finds policy
violations — so the two outcomes are not distinguishable by exit status. -/
theorem c8_counterexample :
    mainExitCode none DEFAULT_REQUIRED_TAGS DEFAULT_TAG_FORMATS []
      ["business-unit"] locNone = 1
    ∧ mainExitCode (some [emptyTagsResource]) DEFAULT_REQUIRED_TAGS
      DEFAULT_TAG_FORMATS [] ["business-unit"] locNone = 1 := by decide

/-- C8 amended: whatever the active policy, a snapshot parse failure exits
with status 1 (the uncaught exception status), which equals the status of a
violations-found run. -/
theorem c8_amended_same_exit_status (requiredTagsCfg : RequiredTags)
    (tagFormats : TagFormats) (excludeResources : List String)
    (requiredTags : List String) (loc : String → Option (String × Nat)) :
    mainExitCode none requiredTagsCfg tagFormats excludeResources
      requiredTags loc = 1
    ∧ mainExitCode (some [emptyTagsResource]) DEFAULT_REQUIRED_TAGS
      DEFAULT_TAG_FORMATS [] ["business-unit"] locNone = 1 :=
  ⟨rfl, by decide⟩
